import Mathlib

/-!
Verification of `sasutils/cli/sas_sd_snic_alias.py`.

The Python module resolves a kernel block-device name to a udev alias of
the form `<nickname>-bayNN`.  We embed the module shallowly: the sysfs
tree is a record of the three accesses the code performs (the enclosure
class listing, the block-device lookup and the SES nickname query);
Python exceptions become an explicit error type; the dict of enclosures
becomes an association list with Python-dict insert/lookup semantics.
-/

set_option autoImplicit false

namespace SasSdSnicAlias

/-- A scsi_generic node: only its `sg_name` attribute is read. -/
structure ScsiGeneric where
  sg_name : String
deriving DecidableEq

/-- An `EnclosureDevice` as read from one node of the enclosure class:
the code reads `attrs.sas_address` and `scsi_generic.sg_name`. -/
structure EnclosureNode where
  sas_address : String
  scsi_generic : ScsiGeneric
deriving DecidableEq

/-- The `sas_device` of the block device's end device: the two attributes
read by the code.  A missing `bay_identifier` attribute (an
`AttributeError` in Python) is modelled by `none`. -/
structure SASDevice where
  bay_identifier : Option String
  enclosure_identifier : String
deriving DecidableEq

/-- The `array_device` association of a block device: the code only
follows it to `enclosure.scsi_generic.sg_name`. -/
structure ArrayDevice where
  enclosure_sg_name : String
deriving DecidableEq

/-- A `SASBlockDevice`: name, sysfs node path, the optional
`array_device` association (`None` in Python when the
`enclosure_device` symlink is absent) and the end device's
`sas_device`. -/
structure SASBlockDevice where
  name : String
  sysfs_path : String
  array_device : Option ArrayDevice
  sas_device : SASDevice
deriving DecidableEq

/-- The Python exceptions the module can raise or propagate. -/
inductive ResolveError where
  | keyError (key : String)
  | valueError (val : String)
  | attributeError (attr : String)
  | readError (msg : String)
deriving DecidableEq

/-- The sysfs accesses performed by the module:
`enclosure_class` is the iteration over `sysfs.node('class').node('enclosure')`,
where each element is the result of reading that enclosure node
(`EnclosureDevice(encl.node('device'))` plus its attributes, which may
fail with a read error); `block` is the lookup of
`sysfs.node('block').node(name).node('device')`; `snic` is
`ses_get_snic_nickname`, returning `None` or a string. -/
structure Sysfs where
  enclosure_class : List (Except String EnclosureNode)
  block : String → Option SASBlockDevice
  snic : String → Option String

/-- Python `dict.__setitem__` on an insertion-ordered association list:
replace the value in place when the key is present, else append. -/
def dictInsert (d : List (String × EnclosureNode)) (k : String) (v : EnclosureNode) :
    List (String × EnclosureNode) :=
  match d with
  | [] => [(k, v)]
  | (k0, v0) :: rest => if k0 = k then (k, v) :: rest else (k0, v0) :: dictInsert rest k v

/-- Python `dict.__getitem__` (successful case) / `KeyError` (miss, `none`). -/
def dictLookup (d : List (String × EnclosureNode)) (k : String) : Option EnclosureNode :=
  match d with
  | [] => none
  | (k0, v) :: rest => if k0 = k then some v else dictLookup rest k

/-- The enclosure preload loop (lines 49-52): iterate the enclosure
class, read each node and assign `enclosures[sas_address] = encldev`.
A node whose read fails raises, aborting the whole build: there is no
`try` around the loop body. -/
def buildEnclosures : List (Except String EnclosureNode) → List (String × EnclosureNode) →
    Except String (List (String × EnclosureNode))
  | [], acc => .ok acc
  | .error e :: _, _ => .error e
  | .ok encl :: rest, acc => buildEnclosures rest (dictInsert acc encl.sas_address encl)

/-- ASCII decimal digit test, the membership test of
`rstrip('0123456789')` and of the digit runs accepted by `int`. -/
def pyIsDigit (c : Char) : Bool :=
  decide (48 ≤ c.toNat) && decide (c.toNat ≤ 57)

/-- Value of a list of decimal digit characters. -/
def digitsToNat (l : List Char) : Nat :=
  l.foldl (fun a c => a * 10 + (c.toNat - 48)) 0

/-- ASCII whitespace as stripped by Python `int` (space, tab, newline,
carriage return, vertical tab, form feed). -/
def pyIsSpace (c : Char) : Bool :=
  decide (c.toNat = 32) || decide (9 ≤ c.toNat ∧ c.toNat ≤ 13)

/-- Python `str.strip()` on the underlying characters (ASCII whitespace). -/
def pyStrip (s : String) : List Char :=
  ((s.data.dropWhile pyIsSpace).reverse.dropWhile pyIsSpace).reverse

/-- Python `int(str)`: optional surrounding whitespace, optional sign,
then one or more decimal digits; anything else raises `ValueError`
(modelled as `none`). -/
def pyInt (s : String) : Option Int :=
  match pyStrip s with
  | [] => none
  | c :: rest =>
    if c = Char.ofNat 45 then
      if rest ≠ [] ∧ rest.all pyIsDigit then some (-(digitsToNat rest : Int)) else none
    else if c = Char.ofNat 43 then
      if rest ≠ [] ∧ rest.all pyIsDigit then some (digitsToNat rest : Int) else none
    else
      if (c :: rest).all pyIsDigit then some (digitsToNat (c :: rest) : Int) else none

/-- Python `blkdev.rstrip('0123456789')`: remove the longest run of
trailing decimal digits. -/
def pyRstripDigits (s : String) : String :=
  String.mk ((s.data.reverse.dropWhile pyIsDigit).reverse)

/-- Python `'.. {bay_identifier:02d}'`: decimal representation of the
integer, zero padded on the left to a minimum width of two (the sign
counts toward the width, as in Python). -/
def format02d (n : Int) : String :=
  let s := toString n
  if s.length ≥ 2 then s else "0" ++ s

/-- `ALIAS_FORMAT` (line 37) applied to a nickname and a bay identifier. -/
def aliasFormat (nickname : String) (bay : Int) : String :=
  nickname ++ "-bay" ++ format02d bay

/-- Python `x or y` on the nickname query result: `None` and the empty
string are falsy, any other string is returned unchanged. -/
def pyOrStr (x : Option String) (y : String) : String :=
  match x with
  | none => y
  | some s => if s = "" then y else s

/-- Lines 78-80: choose the nickname (query result, or the
`<name>_no_snic` fallback when the query is falsy) and format the alias. -/
def formatAlias (snicResult : Option String) (bay : Int) (deviceName : String) : String :=
  aliasFormat (pyOrStr snicResult (deviceName ++ "_no_snic")) bay

/-- Lines 59-72: obtain the SES sg name, via the `array_device`
association when present, else by looking the end device's
`enclosure_identifier` up in the preloaded dict; a miss logs a warning
naming the device and re-raises the `KeyError`.  The second component
collects the log lines emitted (Python `logging.warning` writes to
standard error). -/
def resolveSesSG (enclosures : List (String × EnclosureNode)) (blkdev : SASBlockDevice) :
    Except ResolveError String × List String :=
  match blkdev.array_device with
  | some ad => (.ok ad.enclosure_sg_name, [])
  | none =>
    match dictLookup enclosures blkdev.sas_device.enclosure_identifier with
    | some encl => (.ok encl.scsi_generic.sg_name, [])
    | none =>
      (.error (.keyError blkdev.sas_device.enclosure_identifier),
       [blkdev.name ++ " not an array device (" ++ blkdev.sysfs_path ++ ")"])

/-- The function `sas_sd_snic_alias(blkdev)`: preload the enclosure
dict, construct the block device from the digit-stripped name, resolve
the SES sg name, parse the bay identifier as an integer, query the
nickname and format the alias.  Returns the result (or the Python
exception) together with the log lines emitted. -/
def sas_sd_snic_alias (fs : Sysfs) (arg : String) : Except ResolveError String × List String :=
  match buildEnclosures fs.enclosure_class [] with
  | .error e => (.error (.readError e), [])
  | .ok enclosures =>
    match fs.block (pyRstripDigits arg) with
    | none => (.error (.attributeError "device"), [])
    | some blkdev =>
      match resolveSesSG enclosures blkdev with
      | (.error e, logs) => (.error e, logs)
      | (.ok ses_sg, logs) =>
        match blkdev.sas_device.bay_identifier with
        | none => (.error (.attributeError "bay_identifier"), logs)
        | some bayStr =>
          match pyInt bayStr with
          | none => (.error (.valueError bayStr), logs)
          | some bay => (.ok (formatAlias (fs.snic ses_sg) bay blkdev.name), logs)

/-- Outcome of one process invocation: exit code, standard output lines
and standard error lines (log lines included, as Python logging writes
them to standard error). -/
structure ProcResult where
  exit_code : Nat
  stdout : List String
  stderr : List String
deriving DecidableEq

/-- A single quote character, as produced by Python `repr` on a plain
string key of a `KeyError`. -/
def sq : String := String.singleton (Char.ofNat 39)

/-- The entry point `main()`: with exactly one argument, run the
resolution; print the alias on success; on `KeyError` print
`Not found: <repr of key>` to standard error and exit 1; any other
exception escapes as an uncaught traceback (exit code 1); with a wrong
argument count print usage and exit 1. -/
def main (fs : Sysfs) (argv : List String) : ProcResult :=
  match argv with
  | [_prog, arg] =>
    match sas_sd_snic_alias fs arg with
    | (.ok result, logs) =>
      if result ≠ "" then ⟨0, [result], logs⟩ else ⟨0, [], logs⟩
    | (.error (.keyError k), logs) => ⟨1, [], logs ++ ["Not found: " ++ sq ++ k ++ sq]⟩
    | (.error _, logs) => ⟨1, [], logs ++ ["Traceback (most recent call last)"]⟩
  | _ => ⟨1, [], ["Usage: " ++ (argv.headD "") ++ " <blkdev>"]⟩

/-! ### Spec-side definitions (for refinement comparison) -/

/-- Spec-side restatement of the alias format: the bay number zero
padded to two digits (the spec states this for bays 0 to 99). -/
def specPad2 (n : Int) : String :=
  if n < 10 then "0" ++ toString n else toString n

/-- Spec-side restatement: the last enclosure enumerated by the tree
with the given SAS address (unreadable nodes skipped; under a
successful build none exist). -/
def specLastEncl : List (Except String EnclosureNode) → String → Option EnclosureNode
  | [], _ => none
  | .error _ :: rest, k => specLastEncl rest k
  | .ok n :: rest, k =>
    match specLastEncl rest k with
    | some e => some e
    | none => if n.sas_address = k then some n else none

/-- `p` is a prefix of `s`, on the underlying character lists. -/
def strStarts (p s : String) : Bool :=
  p.data.isPrefixOf s.data

/-! ### Concrete topologies used by witnesses and counterexamples -/

/-- An enclosure with SAS address 0x5000c1 whose SES device is sg7. -/
def exEncl1 : EnclosureNode := ⟨"0x5000c1", ⟨"sg7"⟩⟩

/-- A block device with a direct array-device association to sg3. -/
def exBlkC1 : SASBlockDevice :=
  ⟨"sdc", "/sys/block/sdc/device", some ⟨"sg3"⟩, ⟨some "12", "0x5000c1"⟩⟩

/-- A tree holding one enclosure and the block device `sdc`. -/
def exFsC1 : Sysfs :=
  ⟨[.ok exEncl1], fun s => if s = "sdc" then some exBlkC1 else none, fun _ => some "rack7-encl2"⟩

/-- The same tree with an empty enclosure class. -/
def exFsC1b : Sysfs := ⟨[], exFsC1.block, exFsC1.snic⟩

/-- A healthy enclosure next to an unreadable enclosure node. -/
def exEnclHealthy : EnclosureNode := ⟨"0xcc", ⟨"sg5"⟩⟩

/-- A device behind the healthy enclosure, with no direct association. -/
def exBlkC2 : SASBlockDevice :=
  ⟨"sdd", "/sys/block/sdd/device", none, ⟨some "2", "0xcc"⟩⟩

/-- A tree whose enclosure class has one healthy node and one node
whose read fails with EIO. -/
def exFsC2 : Sysfs :=
  ⟨[.ok exEnclHealthy, .error "EIO"],
   fun s => if s = "sdd" then some exBlkC2 else none, fun _ => some "enc"⟩

/-- A device with no association whose enclosure identifier matches no
indexed enclosure. -/
def exBlkC3 : SASBlockDevice :=
  ⟨"sdz", "/sys/block/sdz/device", none, ⟨some "4", "0xdead"⟩⟩

/-- A tree holding one enclosure and the block device `sdz`. -/
def exFsC3 : Sysfs :=
  ⟨[.ok exEncl1], fun s => if s = "sdz" then some exBlkC3 else none, fun _ => none⟩

/-- A device with no association whose enclosure identifier matches the
indexed enclosure `exEncl1`. -/
def exBlkC4 : SASBlockDevice :=
  ⟨"sde", "/sys/block/sde/device", none, ⟨some "08", "0x5000c1"⟩⟩

/-- A tree holding one enclosure and the block device `sde`. -/
def exFsC4 : Sysfs :=
  ⟨[.ok exEncl1], fun s => if s = "sde" then some exBlkC4 else none, fun _ => some "encX"⟩

/-- A device whose bay identifier attribute is non-numeric. -/
def exBlkC8 : SASBlockDevice :=
  ⟨"sdf", "/sys/block/sdf/device", some ⟨"sg9"⟩, ⟨some "n/a", "0x5000c1"⟩⟩

/-- A tree holding the block device `sdf` with a malformed bay. -/
def exFsC8 : Sysfs :=
  ⟨[], fun s => if s = "sdf" then some exBlkC8 else none, fun _ => some "enc"⟩

/-- First of two enclosures sharing the SAS address 0xaa. -/
def exEnclA0 : EnclosureNode := ⟨"0xaa", ⟨"sg0"⟩⟩

/-- Second of two enclosures sharing the SAS address 0xaa. -/
def exEnclA1 : EnclosureNode := ⟨"0xaa", ⟨"sg1"⟩⟩

/-- An enclosure with the distinct SAS address 0xbb. -/
def exEnclB : EnclosureNode := ⟨"0xbb", ⟨"sg2"⟩⟩

/-- An enclosure enumeration presenting a duplicated SAS address. -/
def exNodesC9 : List (Except String EnclosureNode) := [.ok exEnclA0, .ok exEnclA1, .ok exEnclB]

/-- The index the build produces from `exNodesC9`. -/
def exDictC9 : List (String × EnclosureNode) := [("0xaa", exEnclA1), ("0xbb", exEnclB)]

/-! ### Helper lemmas -/

theorem dropWhile_append_of_all {p : Char → Bool} :
    ∀ (l1 l2 : List Char), (∀ c ∈ l1, p c = true) →
      List.dropWhile p (l1 ++ l2) = List.dropWhile p l2 := by
  intro l1 l2 h
  induction l1 with
  | nil => rfl
  | cons c rest ih =>
    rw [List.cons_append, List.dropWhile_cons, if_pos (h c (List.mem_cons_self c rest))]
    exact ih (fun x hx => h x (List.mem_cons_of_mem c hx))

theorem no_snic_bay_merge (p : String) : "_no_snic" ++ ("-bay" ++ p) = "_no_snic-bay" ++ p := by
  have h : ("_no_snic" : String) ++ "-bay" = "_no_snic-bay" := by decide
  rw [← String.append_assoc, h]

theorem not_prefix_append_underscore (pat l tail : List Char) (r : List Char)
    (hpat : pat = [Char.ofNat 45, Char.ofNat 98, Char.ofNat 97, Char.ofNat 121])
    (h1 : ¬ (pat <+: l)) (h2 : tail = Char.ofNat 95 :: r) :
    ¬ (pat <+: l ++ tail) := by
  intro hp
  rcases List.prefix_or_prefix_of_prefix hp (List.prefix_append l tail) with h | h
  · exact h1 h
  · obtain ⟨t, ht⟩ := h
    have htail : t <+: tail := (List.prefix_append_right_inj l).mp (ht ▸ hp)
    cases t with
    | nil =>
      rw [List.append_nil] at ht
      exact h1 (ht ▸ List.prefix_refl pat)
    | cons c t2 =>
      have hc : c ∈ pat := by
        rw [← ht]
        exact List.mem_append_right l (List.mem_cons_self c t2)
      rw [h2, List.cons_prefix_cons] at htail
      rw [hpat, htail.1] at hc
      exact absurd hc (by decide)

theorem dictLookup_dictInsert (d : List (String × EnclosureNode)) (k : String)
    (v : EnclosureNode) (k2 : String) :
    dictLookup (dictInsert d k v) k2 = if k = k2 then some v else dictLookup d k2 := by
  induction d with
  | nil => simp [dictInsert, dictLookup]
  | cons p rest ih =>
    obtain ⟨k0, v0⟩ := p
    by_cases h : k0 = k
    · subst h
      simp only [dictInsert, if_pos rfl, dictLookup]
      by_cases h2 : k0 = k2 <;> simp [h2]
    · simp only [dictInsert, if_neg h, dictLookup]
      by_cases h2 : k0 = k2
      · subst h2
        have hk : ¬ (k = k0) := fun hh => h hh.symm
        simp [hk]
      · simp [h2, ih]

theorem mem_keys_dictInsert (d : List (String × EnclosureNode)) (k : String)
    (v : EnclosureNode) (x : String) :
    x ∈ (dictInsert d k v).map Prod.fst ↔ x = k ∨ x ∈ d.map Prod.fst := by
  induction d with
  | nil => simp [dictInsert]
  | cons p rest ih =>
    obtain ⟨k0, v0⟩ := p
    by_cases h : k0 = k
    · subst h
      simp [dictInsert]
    · simp [dictInsert, h, ih]
      tauto

theorem nodup_keys_dictInsert (d : List (String × EnclosureNode)) (k : String)
    (v : EnclosureNode) (h : (d.map Prod.fst).Nodup) :
    ((dictInsert d k v).map Prod.fst).Nodup := by
  induction d with
  | nil => simp [dictInsert]
  | cons p rest ih =>
    obtain ⟨k0, v0⟩ := p
    simp only [List.map_cons, List.nodup_cons] at h
    by_cases hk : k0 = k
    · subst hk
      simpa [dictInsert] using h
    · simp only [dictInsert, if_neg hk, List.map_cons, List.nodup_cons]
      refine ⟨fun hmem => ?_, ih h.2⟩
      rcases (mem_keys_dictInsert rest k v k0).mp hmem with h1 | h1
      · exact hk h1
      · exact h.1 h1

theorem buildEnclosures_nodup (nodes : List (Except String EnclosureNode)) :
    ∀ (acc d : List (String × EnclosureNode)), buildEnclosures nodes acc = .ok d →
      (acc.map Prod.fst).Nodup → (d.map Prod.fst).Nodup := by
  induction nodes with
  | nil =>
    intro acc d h hacc
    simp only [buildEnclosures] at h
    cases h
    exact hacc
  | cons n rest ih =>
    intro acc d h hacc
    cases n with
    | error e => simp [buildEnclosures] at h
    | ok encl =>
      simp only [buildEnclosures] at h
      exact ih _ d h (nodup_keys_dictInsert acc encl.sas_address encl hacc)

theorem buildEnclosures_lookup (nodes : List (Except String EnclosureNode)) :
    ∀ (acc d : List (String × EnclosureNode)) (k : String),
      buildEnclosures nodes acc = .ok d →
      dictLookup d k = (specLastEncl nodes k).elim (dictLookup acc k) some := by
  induction nodes with
  | nil =>
    intro acc d k h
    simp only [buildEnclosures] at h
    cases h
    rfl
  | cons n rest ih =>
    intro acc d k h
    cases n with
    | error e => simp [buildEnclosures] at h
    | ok encl =>
      simp only [buildEnclosures] at h
      rw [ih _ d k h]
      cases hs : specLastEncl rest k with
      | some e => simp [specLastEncl, hs]
      | none =>
        simp only [specLastEncl, hs, Option.elim]
        rw [dictLookup_dictInsert]
        by_cases ha : encl.sas_address = k <;> simp [ha]

theorem buildEnclosures_error (nodes : List (Except String EnclosureNode)) :
    ∀ (acc : List (String × EnclosureNode)) (e : String), Except.error e ∈ nodes →
      ∃ e2, buildEnclosures nodes acc = .error e2 := by
  induction nodes with
  | nil => intro acc e h; simp at h
  | cons n rest ih =>
    intro acc e h
    cases n with
    | error e0 => exact ⟨e0, rfl⟩
    | ok encl =>
      rcases List.mem_cons.mp h with h1 | h1
      · exact absurd h1 (by simp)
      · simpa only [buildEnclosures] using ih _ e h1

/-! ### Claims -/

/-- Claim C1: for every block device whose node exposes a direct
array-device association, resolution uses only the primary path: the
resolved SES generic name equals the one reached through that
association's enclosure node, whatever the enclosure index holds, and
the whole resolution is independent of the index contents (two trees
differing only in their enclosure class, both building successfully,
give identical results). -/
theorem c1_primary_path_independent_of_index
    (fs fs2 : Sysfs) (arg : String) (blkdev : SASBlockDevice) (ad : ArrayDevice)
    (d d2 : List (String × EnclosureNode))
    (hb : buildEnclosures fs.enclosure_class [] = .ok d)
    (hb2 : buildEnclosures fs2.enclosure_class [] = .ok d2)
    (hblock : fs2.block = fs.block) (hsnic : fs2.snic = fs.snic)
    (hfind : fs.block (pyRstripDigits arg) = some blkdev)
    (harr : blkdev.array_device = some ad) :
    (∀ e : List (String × EnclosureNode), resolveSesSG e blkdev = (.ok ad.enclosure_sg_name, [])) ∧
    sas_sd_snic_alias fs arg = sas_sd_snic_alias fs2 arg := by
  have hres : ∀ e : List (String × EnclosureNode),
      resolveSesSG e blkdev = (.ok ad.enclosure_sg_name, []) := by
    intro e
    simp [resolveSesSG, harr]
  refine ⟨hres, ?_⟩
  simp only [sas_sd_snic_alias, hb, hb2, hblock, hsnic, hfind, hres]

/-- Witness for C1: the device `sdc` with a direct association to sg3
resolves identically under a one-enclosure index and an empty index,
and the fallback lookup never contributes. -/
theorem c1_witness :
    resolveSesSG [] exBlkC1 = (.ok "sg3", []) ∧
    sas_sd_snic_alias exFsC1 "sdc1" = sas_sd_snic_alias exFsC1b "sdc1" := by
  have h := c1_primary_path_independent_of_index exFsC1 exFsC1b "sdc1" exBlkC1 ⟨"sg3"⟩
    [("0x5000c1", exEncl1)] [] rfl rfl rfl rfl (by decide) rfl
  exact ⟨h.1 [], h.2⟩

/-- Counterexample to C2 as stated: a tree whose enclosure class has
one healthy node and one unreadable node does not keep the healthy
enclosure in an index; the build aborts with the read error and the
device behind the healthy enclosure fails to resolve. -/
theorem c2_counterexample :
    buildEnclosures exFsC2.enclosure_class [] = .error "EIO" ∧
    sas_sd_snic_alias exFsC2 "sdd" = (.error (.readError "EIO"), []) :=
  ⟨rfl, rfl⟩

/-- Claim C2 (amended): if reading any single enclosure node fails
while the index is being built, the error propagates and the whole
build aborts: no index is produced and the resolution of every device
of that invocation fails with a read error. -/
theorem c2_amended_build_aborts :
    (∀ (nodes : List (Except String EnclosureNode)) (acc : List (String × EnclosureNode))
        (e : String), Except.error e ∈ nodes → ∃ e2, buildEnclosures nodes acc = .error e2) ∧
    (∀ (fs : Sysfs) (arg e : String), Except.error e ∈ fs.enclosure_class →
        ∃ e2, sas_sd_snic_alias fs arg = (.error (.readError e2), [])) := by
  refine ⟨fun nodes acc e h => buildEnclosures_error nodes acc e h, fun fs arg e h => ?_⟩
  obtain ⟨e2, he⟩ := buildEnclosures_error fs.enclosure_class [] e h
  exact ⟨e2, by simp [sas_sd_snic_alias, he]⟩

/-- Witness for the amended C2 on the concrete mixed tree. -/
theorem c2_witness :
    (∃ e2, buildEnclosures exFsC2.enclosure_class [] = .error e2) ∧
    (∃ e2, sas_sd_snic_alias exFsC2 "sdd" = (.error (.readError e2), [])) :=
  ⟨c2_amended_build_aborts.1 exFsC2.enclosure_class [] "EIO"
      (List.mem_cons_of_mem _ (List.mem_cons_self _ _)),
   c2_amended_build_aborts.2 exFsC2 "sdd" "EIO"
      (List.mem_cons_of_mem _ (List.mem_cons_self _ _))⟩

/-- Claim C3: for a block device with no direct association whose
enclosure identifier matches no index key, resolution fails as
not-an-array-device: exit code 1, nothing on standard output, and
standard error carries the warning naming the device and its path
followed by the `Not found` diagnostic with the missing key. -/
theorem c3_not_an_array_device
    (fs : Sysfs) (prog arg : String) (blkdev : SASBlockDevice)
    (d : List (String × EnclosureNode))
    (hb : buildEnclosures fs.enclosure_class [] = .ok d)
    (hfind : fs.block (pyRstripDigits arg) = some blkdev)
    (harr : blkdev.array_device = none)
    (hmiss : dictLookup d blkdev.sas_device.enclosure_identifier = none) :
    main fs [prog, arg] =
      ⟨1, [],
       [blkdev.name ++ " not an array device (" ++ blkdev.sysfs_path ++ ")",
        "Not found: " ++ sq ++ blkdev.sas_device.enclosure_identifier ++ sq]⟩ := by
  simp [main, sas_sd_snic_alias, resolveSesSG, hb, hfind, harr, hmiss]

/-- Witness for C3: `sdz` has no association and its enclosure
identifier 0xdead is absent from the one-enclosure index. -/
theorem c3_witness :
    main exFsC3 ["sas_sd_snic_alias", "sdz"] =
      ⟨1, [],
       ["sdz not an array device (/sys/block/sdz/device)",
        "Not found: " ++ sq ++ "0xdead" ++ sq]⟩ :=
  c3_not_an_array_device exFsC3 "sas_sd_snic_alias" "sdz" exBlkC3
    [("0x5000c1", exEncl1)] rfl (by decide) rfl rfl

/-- Claim C4: for a block device with no direct association whose
enclosure identifier equals an index key, resolution succeeds via the
fallback path and the SES generic name used is exactly the one of the
enclosure stored under that key. -/
theorem c4_fallback_resolution
    (fs : Sysfs) (arg : String) (blkdev : SASBlockDevice) (encl : EnclosureNode)
    (d : List (String × EnclosureNode)) (bayStr : String) (bay : Int)
    (hb : buildEnclosures fs.enclosure_class [] = .ok d)
    (hfind : fs.block (pyRstripDigits arg) = some blkdev)
    (harr : blkdev.array_device = none)
    (hhit : dictLookup d blkdev.sas_device.enclosure_identifier = some encl)
    (hbay : blkdev.sas_device.bay_identifier = some bayStr)
    (hint : pyInt bayStr = some bay) :
    resolveSesSG d blkdev = (.ok encl.scsi_generic.sg_name, []) ∧
    sas_sd_snic_alias fs arg =
      (.ok (formatAlias (fs.snic encl.scsi_generic.sg_name) bay blkdev.name), []) := by
  have hres : resolveSesSG d blkdev = (.ok encl.scsi_generic.sg_name, []) := by
    simp [resolveSesSG, harr, hhit]
  refine ⟨hres, ?_⟩
  simp only [sas_sd_snic_alias, hb, hfind, hres, hbay, hint]

/-- Witness for C4: `sde` resolves through the index entry for
0x5000c1 to the SES device sg7. -/
theorem c4_witness :
    resolveSesSG [("0x5000c1", exEncl1)] exBlkC4 = (.ok "sg7", []) ∧
    sas_sd_snic_alias exFsC4 "sde" = (.ok (formatAlias (exFsC4.snic "sg7") 8 "sde"), []) :=
  c4_fallback_resolution exFsC4 "sde" exBlkC4 exEncl1 [("0x5000c1", exEncl1)] "08" 8
    rfl (by decide) rfl rfl rfl (by decide)

/-- Claim C5: for every nickname and every bay with 0 ≤ bay ≤ 99, the
alias formatter returns exactly the nickname, the literal "-bay" and
the bay number zero padded to two digits. -/
theorem c5_alias_format_zero_pads_bay (nickname : String) (bay : Int)
    (h0 : 0 ≤ bay) (h99 : bay ≤ 99) :
    aliasFormat nickname bay = nickname ++ "-bay" ++ specPad2 bay := by
  have hlt : bay.toNat < 100 := by omega
  have key : ∀ k : Fin 100, format02d ((k : Nat) : Int) = specPad2 ((k : Nat) : Int) := by decide
  have h := key ⟨bay.toNat, hlt⟩
  simp only [Fin.val_mk] at h
  rw [Int.toNat_of_nonneg h0] at h
  unfold aliasFormat
  rw [h]

/-- Witness for C5 at nickname "enc1" and bay 3. -/
theorem c5_witness :
    aliasFormat "enc1" 3 = "enc1" ++ "-bay" ++ specPad2 3 ∧ aliasFormat "enc1" 3 = "enc1-bay03" :=
  ⟨c5_alias_format_zero_pads_bay "enc1" 3 (by decide) (by decide), by decide⟩

/-- Claim C6: when the nickname query result is absent the formatter
never fails: it synthesizes the fallback nickname
`<deviceLabel>_no_snic` and applies the same bay format, so
`formatAlias none 7 "sdx"` is `"sdx_no_snic-bay07"`. -/
theorem c6_absent_nickname_fallback :
    (∀ (bay : Int) (name : String),
        formatAlias none bay name = aliasFormat (name ++ "_no_snic") bay) ∧
    (∀ (bay : Int) (name : String),
        formatAlias none bay name = name ++ ("_no_snic-bay" ++ format02d bay)) ∧
    formatAlias none 7 "sdx" = "sdx_no_snic-bay07" := by
  refine ⟨fun bay name => rfl, fun bay name => ?_, by decide⟩
  show ((name ++ "_no_snic") ++ "-bay") ++ format02d bay = name ++ ("_no_snic-bay" ++ format02d bay)
  rw [String.append_assoc, String.append_assoc, no_snic_bay_merge]

/-- Claim C7: the whole-disk name is the input with its trailing
decimal digits removed, stopping at the first non-digit from the end:
appending digits never changes the result, a name ending in a
non-digit is unchanged, "sdb1" maps to "sdb" and "sdb" to itself. -/
theorem c7_rstrip_trailing_digits :
    (∀ s t : String, (∀ c ∈ t.data, pyIsDigit c = true) →
        pyRstripDigits (s ++ t) = pyRstripDigits s) ∧
    (∀ (s : String) (c : Char), pyIsDigit c = false → pyRstripDigits (s.push c) = s.push c) ∧
    pyRstripDigits "sdb1" = "sdb" ∧ pyRstripDigits "sdb" = "sdb" := by
  refine ⟨fun s t h => ?_, fun s c hc => ?_, by decide, by decide⟩
  · unfold pyRstripDigits
    rw [String.data_append, List.reverse_append,
        dropWhile_append_of_all _ _ (fun x hx => h x (List.mem_reverse.mp hx))]
  · unfold pyRstripDigits
    rw [String.data_push, List.reverse_append, List.reverse_singleton, List.singleton_append,
        List.dropWhile_cons, if_neg (by rw [hc]; exact Bool.false_ne_true),
        List.reverse_cons, List.reverse_reverse, ← String.data_push]

/-- Witness for C7 at "sdb" with digit suffix "1" and at "sd" with
pushed non-digit final character. -/
theorem c7_witness :
    pyRstripDigits ("sdb" ++ "1") = pyRstripDigits "sdb" ∧
    pyRstripDigits (String.push "sd" 'b') = String.push "sd" 'b' :=
  ⟨c7_rstrip_trailing_digits.1 "sdb" "1" (by decide),
   c7_rstrip_trailing_digits.2.1 "sd" 'b' (by decide)⟩

/-- Claim C8: the bay identifier is parsed as an integer and a
non-numeric or missing value is a hard failure for the device: the
resolution returns the corresponding exception (never a defaulted
alias) and the process prints no alias and exits with code 1. -/
theorem c8_bay_identifier_failure
    (fs : Sysfs) (prog arg : String) (blkdev : SASBlockDevice)
    (d : List (String × EnclosureNode)) (sg : String) (lg : List String)
    (hb : buildEnclosures fs.enclosure_class [] = .ok d)
    (hfind : fs.block (pyRstripDigits arg) = some blkdev)
    (hses : resolveSesSG d blkdev = (.ok sg, lg))
    (hbad : blkdev.sas_device.bay_identifier = none ∨
      ∃ bs, blkdev.sas_device.bay_identifier = some bs ∧ pyInt bs = none) :
    (sas_sd_snic_alias fs arg = (.error (.attributeError "bay_identifier"), lg) ∨
      ∃ bs, blkdev.sas_device.bay_identifier = some bs ∧
        sas_sd_snic_alias fs arg = (.error (.valueError bs), lg)) ∧
    (main fs [prog, arg]).stdout = [] ∧ (main fs [prog, arg]).exit_code = 1 := by
  rcases hbad with hnone | ⟨bs, hsome, hbadint⟩
  · have h : sas_sd_snic_alias fs arg = (.error (.attributeError "bay_identifier"), lg) := by
      simp only [sas_sd_snic_alias, hb, hfind, hses, hnone]
    exact ⟨Or.inl h, by simp [main, h], by simp [main, h]⟩
  · have h : sas_sd_snic_alias fs arg = (.error (.valueError bs), lg) := by
      simp only [sas_sd_snic_alias, hb, hfind, hses, hsome, hbadint]
    exact ⟨Or.inr ⟨bs, hsome, h⟩, by simp [main, h], by simp [main, h]⟩

/-- Witness for C8: `sdf` carries the non-numeric bay identifier
string `n/a`. -/
theorem c8_witness :
    (sas_sd_snic_alias exFsC8 "sdf" = (.error (.attributeError "bay_identifier"), []) ∨
      ∃ bs, exBlkC8.sas_device.bay_identifier = some bs ∧
        sas_sd_snic_alias exFsC8 "sdf" = (.error (.valueError bs), [])) ∧
    (main exFsC8 ["prog", "sdf"]).stdout = [] ∧ (main exFsC8 ["prog", "sdf"]).exit_code = 1 :=
  c8_bay_identifier_failure exFsC8 "prog" "sdf" exBlkC8 [] "sg9" []
    rfl (by decide) rfl (Or.inr ⟨"n/a", rfl, by decide⟩)

/-- Claim C9: the index built from any tree has unique keys, and a
lookup in it returns the last enclosure the tree enumerated with that
SAS address (last-seen-wins on duplicates). -/
theorem c9_index_unique_keys_last_wins :
    (∀ (nodes : List (Except String EnclosureNode)) (d : List (String × EnclosureNode)),
        buildEnclosures nodes [] = .ok d → (d.map Prod.fst).Nodup) ∧
    (∀ (nodes : List (Except String EnclosureNode)) (d : List (String × EnclosureNode))
        (k : String), buildEnclosures nodes [] = .ok d → dictLookup d k = specLastEncl nodes k) := by
  constructor
  · intro nodes d h
    exact buildEnclosures_nodup nodes [] d h (by simp)
  · intro nodes d k h
    rw [buildEnclosures_lookup nodes [] d k h]
    cases specLastEncl nodes k <;> rfl

/-- Witness for C9 on an enumeration with a duplicated SAS address:
keys are unique and the lookup returns the later enclosure. -/
theorem c9_witness :
    (exDictC9.map Prod.fst).Nodup ∧
    dictLookup exDictC9 "0xaa" = specLastEncl exNodesC9 "0xaa" ∧
    dictLookup exDictC9 "0xaa" = some exEnclA1 :=
  ⟨c9_index_unique_keys_last_wins.1 exNodesC9 exDictC9 rfl,
   c9_index_unique_keys_last_wins.2 exNodesC9 exDictC9 "0xaa" rfl,
   by decide⟩

/-- Claim C10: an empty-string nickname query result is treated exactly
as an absent one: the alias is `<name>_no_snic-bayNN`, and (whenever
the device name itself does not start with "-bay") the alias never
starts with "-bay". -/
theorem c10_empty_nickname_as_absent :
    (∀ (bay : Int) (name : String),
        formatAlias (some "") bay name = formatAlias none bay name) ∧
    (∀ (bay : Int) (name : String),
        formatAlias (some "") bay name = name ++ ("_no_snic-bay" ++ format02d bay)) ∧
    (∀ (bay : Int) (name : String), strStarts "-bay" name = false →
        strStarts "-bay" (formatAlias (some "") bay name) = false) := by
  have heq : ∀ (bay : Int) (name : String),
      formatAlias (some "") bay name = name ++ ("_no_snic-bay" ++ format02d bay) := by
    intro bay name
    show ((name ++ "_no_snic") ++ "-bay") ++ format02d bay =
      name ++ ("_no_snic-bay" ++ format02d bay)
    rw [String.append_assoc, String.append_assoc, no_snic_bay_merge]
  refine ⟨fun bay name => rfl, heq, fun bay name hname => ?_⟩
  cases hb : strStarts "-bay" (formatAlias (some "") bay name) with
  | false => rfl
  | true =>
    exfalso
    have hpre : ("-bay").data <+: (formatAlias (some "") bay name).data :=
      List.isPrefixOf_iff_prefix.mp hb
    have hnpre : ¬ (("-bay").data <+: name.data) := by
      intro hp
      have := List.isPrefixOf_iff_prefix.mpr hp
      rw [strStarts] at hname
      rw [hname] at this
      exact Bool.false_ne_true this
    rw [heq bay name, String.data_append] at hpre
    refine not_prefix_append_underscore ("-bay").data name.data
        (("_no_snic-bay" ++ format02d bay).data)
        (("no_snic-bay" ++ format02d bay).data) rfl hnpre ?_ hpre
    rw [String.data_append, String.data_append]
    rfl

/-- Witness for C10 at bay 7 and device name "sdx". -/
theorem c10_witness :
    strStarts "-bay" "sdx" = false ∧
    strStarts "-bay" (formatAlias (some "") 7 "sdx") = false :=
  ⟨by decide, c10_empty_nickname_as_absent.2.2 7 "sdx" (by decide)⟩

end SasSdSnicAlias
